import Mathlib

/-!
Shallow embedding of the quest-tracker service worker core (src/sw.js): the
persistent store's schema, the ingestion normalizer, the quest reconciliation
engine, the request router with its cache policies, and the cache-generation
lifecycle.  JavaScript objects are embedded as Lean structures whose absent
fields are `none`; JavaScript truthiness on numbers/strings (0 and "" falsy)
is made explicit through the `jsOr*` helpers.  Fallible operations return
`Except`.  Clock and date reads (`Date.now()`, `new Date().toISOString()`) are
passed in as explicit `now` / `today` parameters.
-/

/-- JS `a || b` for an optional number `a`: `undefined` and `0` are falsy
(NaN is not tracked by the embedding). -/
def jsOrNum : Option Int → Int → Int
  | some n, d => if n = 0 then d else n
  | none, d => d

/-- JS `a || b` for an optional string `a`: `undefined` and `""` are falsy. -/
def jsOrStr : Option String → String → String
  | some s, d => if s = "" then d else s
  | none, d => d

/-- JS `a || b` for an optional non-negative integer (timestamps): `undefined`
and `0` are falsy. -/
def jsOrNat : Option Nat → Nat → Nat
  | some n, d => if n = 0 then d else n
  | none, d => d

/-- JS truthiness of an optional string (used for `if (startDate && endDate)`). -/
def strTruthy : Option String → Bool
  | some s => s ≠ ""
  | none => false

/-- Does the character list start with the pattern list? -/
def charsStartWith : List Char → List Char → Bool
  | [], _ => true
  | _ :: _, [] => false
  | p :: ps, c :: cs => p == c && charsStartWith ps cs

/-- Does the character list contain the pattern list as a contiguous run? -/
def charsContain (pat : List Char) : List Char → Bool
  | [] => pat.isEmpty
  | c :: rest => charsStartWith pat (c :: rest) || charsContain pat rest

/-- JS `s.includes(pat)` on strings. -/
def containsStr (s pat : String) : Bool :=
  charsContain pat.toList s.toList

/-- Whitespace class used for JS `\s` and for `String.prototype.trim`. -/
def isWs (c : Char) : Bool :=
  c == ' ' || c == '\t' || c == '\n' || c == '\r' || c == '\x0b' || c == '\x0c'

/-- JS `String.prototype.trim`: strip whitespace from both ends. -/
def trimChars (cs : List Char) : List Char :=
  ((cs.dropWhile isWs).reverse.dropWhile isWs).reverse

/-- Split a character list on a separator character, JS `String.prototype.split`
style: `"".split(c)` is `[""]`, separators at the ends produce empty fields. -/
def splitOnChar (sep : Char) : List Char → List (List Char)
  | [] => [[]]
  | c :: rest =>
    let r := splitOnChar sep rest
    if c == sep then
      [] :: r
    else
      match r with
      | [] => [[c]]
      | h :: t => (c :: h) :: t

/-- Numeric value of a decimal digit character. -/
def digitVal (c : Char) : Nat := c.toNat - 48

/-- Natural number denoted by a list of decimal digit characters. -/
def natOfDigits (cs : List Char) : Nat :=
  cs.foldl (fun a c => a * 10 + digitVal c) 0

/-- JS `parseInt` in base 10 on an already-extracted field: skip leading
whitespace, accept an optional sign, read the maximal run of decimal digits;
`none` models NaN (no digits).  The hexadecimal autodetection of `parseInt`
is not modelled (no claim exercises it). -/
def jsParseInt (cs : List Char) : Option Int :=
  let cs := cs.dropWhile isWs
  match cs with
  | '-' :: rest =>
    let ds := rest.takeWhile Char.isDigit
    if ds.isEmpty then none else some (-(natOfDigits ds : Int))
  | '+' :: rest =>
    let ds := rest.takeWhile Char.isDigit
    if ds.isEmpty then none else some ((natOfDigits ds : Int))
  | _ =>
    let ds := cs.takeWhile Char.isDigit
    if ds.isEmpty then none else some ((natOfDigits ds : Int))

/-- An open JS object flowing through the health-data pipeline (a shared or
posted payload element); absent fields are `none`.  `metadata` is an open
key/value map, embedded as an association list. -/
structure HealthItem where
  type : Option String := none
  date : Option String := none
  steps : Option Int := none
  value : Option Int := none
  source : Option String := none
  metadata : Option (List (String × String)) := none
  timestamp : Option Nat := none
deriving DecidableEq, Repr

/-- A canonical record of the Steps collection: `date` and `steps` are the
required fields of the data model, the rest follow the shapes actually written
by `processHealthData` / `parseHealthDataText` (src/sw.js:308-364). -/
structure StepsRecord where
  date : String
  steps : Int
  source : Option String := none
  metadata : Option (List (String × String)) := none
  type : Option String := none
  timestamp : Option Nat := none
deriving DecidableEq, Repr

/-- A goal object `{steps: N}` carried by a quest's `target` field. -/
structure QuestTarget where
  steps : Option Int := none
deriving DecidableEq, Repr

/-- A record of the Quests collection (open JS object; the fields read or
written by the core: src/sw.js:376-390, 446-448). -/
structure Quest where
  category : Option String := none
  type : Option String := none
  target : Option QuestTarget := none
  progress : Option Int := none
  completed : Option Bool := none
  timestamp : Option Nat := none
  updatedAt : Option Nat := none
deriving DecidableEq, Repr

/-- The mutable contents of the local database: one list per collection, in
insertion (auto-increment key) order.  The `habits` and `achievements`
collections exist in the schema but are never read or written by the core. -/
structure DBState where
  steps : List StepsRecord := []
  healthData : List HealthItem := []
  quests : List Quest := []
  habits : List HealthItem := []
  achievements : List HealthItem := []
deriving DecidableEq, Repr

/-- The empty database (state after `initDB` on first open). -/
def emptyDB : DBState := {}

/-- saveToStore on the Steps collection (src/sw.js:62-77): set `timestamp` to
`Date.now()` when falsy, then `add` the record (append under a fresh key). -/
def saveToStoreSteps (now : Nat) (r : StepsRecord) (s : DBState) : DBState :=
  { s with steps := s.steps ++ [{ r with timestamp := some (jsOrNat r.timestamp now) }] }

/-- saveToStore on the HealthData collection (src/sw.js:62-77). -/
def saveToStoreHealthData (now : Nat) (h : HealthItem) (s : DBState) : DBState :=
  { s with healthData := s.healthData ++ [{ h with timestamp := some (jsOrNat h.timestamp now) }] }

/-- saveToStore on the Quests collection, as invoked by the `SAVE_QUEST_DATA`
message case (src/sw.js:446-448): the record is stored verbatim apart from the
timestamp defaulting. -/
def saveToStoreQuests (now : Nat) (q : Quest) (s : DBState) : DBState :=
  { s with quests := s.quests ++ [{ q with timestamp := some (jsOrNat q.timestamp now) }] }

/-- Recognize `step`/`STEP`… case-insensitively followed by an optional `s`
(the `steps?` tail of the regex at src/sw.js:327); returns the rest of the
input after the greedily matched word. -/
def stepWordRest : List Char → Option (List Char)
  | s :: t :: e :: p :: rest =>
    if s.toLower == 's' && t.toLower == 't' && e.toLower == 'e' && p.toLower == 'p' then
      some (match rest with
            | c :: rest2 => if c.toLower == 's' then rest2 else c :: rest2
            | [] => [])
    else none
  | _ => none

/-- Try to match the regex `(\d{1,5})\s*steps?` at the head of the input with
exactly `k` digits for `k` from the given bound down to 1 (the greedy,
backtracking order of the engine).  Returns the digit run and the rest of the
input after the whole match. -/
def tryStepMatch (cs : List Char) : Nat → Option (List Char × List Char)
  | 0 => none
  | k + 1 =>
    let ds := cs.take (k + 1)
    if ds.length == k + 1 && ds.all Char.isDigit then
      let rest := (cs.drop (k + 1)).dropWhile isWs
      match stepWordRest rest with
      | some rest2 => some (ds, rest2)
      | none => tryStepMatch cs k
    else tryStepMatch cs k

/-- Global scan of `(\d{1,5})\s*steps?` over the input (the `gi` regex at
src/sw.js:327): leftmost matches, resuming after each match; yields the digit
run of each match (which is also what `match(/\d+/)` re-extracts at
src/sw.js:330).  `fuel` bounds the recursion; `cs.length` is always enough. -/
def scanStepMatches : Nat → List Char → List (List Char)
  | 0, _ => []
  | _, [] => []
  | fuel + 1, c :: rest =>
    match tryStepMatch (c :: rest) 5 with
    | some (ds, rest2) => ds :: scanStepMatches fuel rest2
    | none => scanStepMatches fuel rest

/-- One data line of the CSV branch of `parseHealthDataText`
(src/sw.js:314-324): split on commas; with at least two fields push
`{date: parts[0].trim(), steps: parseInt(parts[1].trim()) || 0, type: 'steps'}`,
otherwise skip the line. -/
def csvLineItem (line : List Char) : Option HealthItem :=
  let parts := splitOnChar ',' line
  if parts.length ≥ 2 then
    some { type := some "steps"
         , date := some (String.mk (trimChars ((parts.get? 0).getD [])))
         , steps := some ((jsParseInt (trimChars ((parts.get? 1).getD []))).getD 0) }
  else none

/-- parseHealthDataText (src/sw.js:308-341): comma-bearing text is treated as
CSV with the first line skipped as a header; otherwise the step-pattern scan
produces one item per match, dated `today` (the code's
`new Date().toISOString().split('T')[0]`, passed in explicitly). -/
def parseHealthDataText (today : String) (text : String) : List HealthItem :=
  let cs := text.toList
  let lines := splitOnChar '\n' cs
  if cs.contains ',' then
    (lines.drop 1).filterMap csvLineItem
  else
    (scanStepMatches cs.length cs).map fun ds =>
      { type := some "steps", date := some today, steps := some ((natOfDigits ds : Int)) }

/-- The record written to one of the two collections by an iteration of the
`processHealthData` loop. -/
inductive SavedRecord where
  | stepsRec (r : StepsRecord)
  | healthRec (h : HealthItem)
deriving DecidableEq, Repr

/-- One iteration of the `processHealthData` loop (src/sw.js:349-360): an
element with `type === 'steps'` or a defined `steps` field becomes a canonical
Steps record (`steps` from `item.steps || item.value || 0`, `date` from
`item.date || today`, `source` from `item.source || 'shared'`, `metadata` from
`item.metadata || {}`); any other element is stored verbatim as HealthData. -/
def processItem (today : String) (item : HealthItem) : SavedRecord :=
  if item.type = some "steps" ∨ item.steps.isSome then
    .stepsRec { date := jsOrStr item.date today
              , steps := jsOrNum item.steps (jsOrNum item.value 0)
              , source := some (jsOrStr item.source "shared")
              , metadata := some (item.metadata.getD []) }
  else
    .healthRec item

/-- A parsed structured health payload: a single JSON object or an array. -/
inductive HealthPayload where
  | single (item : HealthItem)
  | array (items : List HealthItem)
deriving DecidableEq, Repr

/-- The wrapping step of `processHealthData` (src/sw.js:345-347): a non-array
payload is wrapped as a one-element array. -/
def payloadItems : HealthPayload → List HealthItem
  | .single item => [item]
  | .array items => items

/-- Faithful embedding of getStepsByDateRange (src/sw.js:117-130).  Line 120
reads `transaction.objectStore(storeName)`, but no `storeName` is in scope
(the transaction was opened on `STORES.STEPS` at line 119), so every call
throws a ReferenceError, embedded as `Except.error`. -/
def getStepsByDateRange (startDate endDate : String) (s : DBState) :
    Except String (List StepsRecord) :=
  Except.error "storeName is not defined"

/-- Lexicographic comparison of character lists by code point (the key order
IndexedDB applies to string keys). -/
def charListLe : List Char → List Char → Bool
  | [], _ => true
  | _ :: _, [] => false
  | a :: as, b :: bs =>
    if a.toNat < b.toNat then true
    else if b.toNat < a.toNat then false
    else charListLe as bs

/-- String order used by `IDBKeyRange.bound` on date keys. -/
def strLe (a b : String) : Bool := charListLe a.toList b.toList

/-- getStepsByDateRange as the spec's defect note assumes it corrected
("the corrected behavior (querying the Steps collection) is assumed
throughout this spec"): an inclusive range query on the Steps `date` index. -/
def getStepsByDateRangeFixed (startDate endDate : String) (s : DBState) :
    Except String (List StepsRecord) :=
  Except.ok (s.steps.filter fun r => strLe startDate r.date && strLe r.date endDate)

/-- The sum of the `steps` fields of a query result
(`todaySteps.reduce((sum, entry) => sum + entry.steps, 0)`, src/sw.js:373). -/
def sumSteps (records : List StepsRecord) : Int :=
  records.foldl (fun acc r => acc + r.steps) 0

/-- JS `Math.min` on two numbers (NaN not tracked), written as the comparison
it denotes so that it evaluates by kernel reduction. -/
def jsMin (a b : Int) : Int := if a ≤ b then a else b

/-- The per-quest update of `updateQuestProgress` (src/sw.js:376-390): a quest
passing the `category === 'fitness' || type === 'steps'` filter whose
`quest.target && quest.target.steps` is truthy gets
`progress = Math.min(totalStepsToday, target.steps)`,
`completed = progress >= target.steps`, and is persisted through
`updateInStore`, which stamps `updatedAt` (src/sw.js:79-91); every other quest
is left untouched. -/
def reconcileQuest (totalStepsToday : Int) (now : Nat) (q : Quest) : Quest :=
  if q.category = some "fitness" ∨ q.type = some "steps" then
    match q.target with
    | some t =>
      match t.steps with
      | some goal =>
        if goal = 0 then q
        else
          { q with progress := some (jsMin totalStepsToday goal)
                 , completed := some (decide (jsMin totalStepsToday goal ≥ goal))
                 , updatedAt := some now }
      | none => q
    | none => q
  else q

/-- updateQuestProgress (src/sw.js:367-404) over an arbitrary date-range
helper: fetch all quests, query today's Steps records, sum them, and run the
per-quest update; the surrounding `try/catch` swallows any error, leaving the
store unchanged. -/
def updateQuestProgressWith
    (query : String → String → DBState → Except String (List StepsRecord))
    (today : String) (now : Nat) (s : DBState) : DBState :=
  match query today today s with
  | .error _ => s
  | .ok todaySteps =>
    { s with quests := s.quests.map (reconcileQuest (sumSteps todaySteps) now) }

/-- updateQuestProgress exactly as shipped: its `getStepsByDateRange` call
throws, the `catch` at src/sw.js:401-403 swallows the error, and no quest is
ever updated. -/
def updateQuestProgress (today : String) (now : Nat) (s : DBState) : DBState :=
  updateQuestProgressWith getStepsByDateRange today now s

/-- updateQuestProgress with the date-range helper corrected as the spec
assumes. -/
def updateQuestProgressFixed (today : String) (now : Nat) (s : DBState) : DBState :=
  updateQuestProgressWith getStepsByDateRangeFixed today now s

/-- processHealthData (src/sw.js:344-364): wrap a non-array payload, store
each element through `processItem`, then run `updateQuestProgress` (the
shipped one, whose internal error is swallowed). -/
def processHealthData (today : String) (now : Nat) (payload : HealthPayload)
    (s : DBState) : DBState :=
  let s1 := (payloadItems payload).foldl
    (fun st item =>
      match processItem today item with
      | .stepsRec r => saveToStoreSteps now r st
      | .healthRec h => saveToStoreHealthData now h st) s
  updateQuestProgress today now s1

/-- Outbound broadcast messages posted to every connected client. -/
inductive BroadcastMsg where
  | healthDataReceived
  | questProgressUpdated (totalStepsToday : Int) (updatedQuests : List Quest)
deriving DecidableEq, Repr

/-- The response of the share-target handler: a `Response.redirect('/', 302)`
or the 500 plain-text error of its catch block. -/
inductive ShareResponse where
  | redirect302 (location : String)
  | error500
deriving DecidableEq, Repr

/-- The multipart form of a `POST /share-data` request: the `text` field and
the text content of the `healthData` file attachment, each possibly absent. -/
structure SharedForm where
  text : Option String := none
  healthDataFile : Option String := none
deriving DecidableEq, Repr

/-- Everything observable about one run of the share-target handler. -/
structure ShareResult where
  response : ShareResponse
  state : DBState
  broadcasts : List BroadcastMsg
deriving DecidableEq, Repr

/-- handleSharedData (src/sw.js:208-251).  `JSON.parse` is passed in as an
oracle `parseJson` (payloads are arbitrary text; `none` models a parse
throw, which the code catches by falling back to `parseHealthDataText`).
A file attachment takes priority over the `text` field; an empty `text`
string is falsy and skipped.  When any payload was produced — even an empty
array, which is truthy in JS — it is processed and a `HEALTH_DATA_RECEIVED`
broadcast is posted; the shipped `updateQuestProgress` inside
`processHealthData` posts nothing because its query error is caught first.
Either way the handler redirects to the application root. -/
def handleSharedData (parseJson : String → Option HealthPayload)
    (today : String) (now : Nat) (form : SharedForm) (s : DBState) : ShareResult :=
  let healthData : Option HealthPayload :=
    match form.healthDataFile with
    | some fileText =>
      match parseJson fileText with
      | some payload => some payload
      | none => some (.array (parseHealthDataText today fileText))
    | none =>
      match form.text with
      | some text =>
        if text = "" then none
        else
          match parseJson text with
          | some payload => some payload
          | none => some (.array (parseHealthDataText today text))
      | none => none
  match healthData with
  | some payload =>
    { response := .redirect302 "/"
    , state := processHealthData today now payload s
    , broadcasts := [.healthDataReceived] }
  | none =>
    { response := .redirect302 "/", state := s, broadcasts := [] }

/-- HTTP method of a request reaching the health API handler. -/
inductive Method where
  | get
  | post
deriving DecidableEq, Repr

/-- A parsed `request.json()` body of a health API POST, modelled with the
shape of its target collection (a posted document of the other shape is
outside the embedding; no claim exercises one). -/
inductive ApiBody where
  | stepsDoc (r : StepsRecord)
  | healthDoc (h : HealthItem)
deriving DecidableEq, Repr

deriving instance DecidableEq for Except

/-- A request as seen by handleHealthAPI: method, pathname, the
`startDate`/`endDate` query parameters, and the result of `request.json()`
(`Except.error` models a JSON parse throw carrying the error message). -/
structure ApiRequest where
  method : Method
  pathname : String
  startDate : Option String := none
  endDate : Option String := none
  body : Except String ApiBody := .error "no body"
deriving DecidableEq, Repr

/-- A response of the health API handler. -/
inductive ApiResponse where
  | jsonArraySteps (records : List StepsRecord)
  | jsonArrayHealth (records : List HealthItem)
  | jsonSuccess
  | jsonError (msg : String)
  | notFound
deriving DecidableEq, Repr

/-- The HTTP status paired with each health API response shape
(src/sw.js:272-303). -/
def ApiResponse.status : ApiResponse → Nat
  | .jsonError _ => 500
  | .notFound => 404
  | _ => 200

/-- Whether the response's JSON body carries an `error` field
(only the catch block's `{error: error.message}` does, src/sw.js:300). -/
def ApiResponse.hasErrorField : ApiResponse → Bool
  | .jsonError _ => true
  | _ => false

/-- handleHealthAPI (src/sw.js:254-305).  GET on a `/steps` path with both
query dates truthy runs the (defective) date-range query — its throw is
converted to a 500 by the catch block; without them it returns the whole
Steps collection.  GET on a `/health` path returns the whole HealthData
collection.  POST parses the body first — a parse throw reaches the catch
block as a 500 `{error}` response with no store write — then inserts into
the collection matching the path.  Anything else is a 404. -/
def handleHealthAPI (now : Nat) (req : ApiRequest) (s : DBState) :
    ApiResponse × DBState :=
  match req.method with
  | .get =>
    if containsStr req.pathname "/steps" then
      if strTruthy req.startDate && strTruthy req.endDate then
        match getStepsByDateRange ((req.startDate).getD "") ((req.endDate).getD "") s with
        | .error e => (.jsonError e, s)
        | .ok records => (.jsonArraySteps records, s)
      else (.jsonArraySteps s.steps, s)
    else if containsStr req.pathname "/health" then
      (.jsonArrayHealth s.healthData, s)
    else (.notFound, s)
  | .post =>
    match req.body with
    | .error e => (.jsonError e, s)
    | .ok doc =>
      if containsStr req.pathname "/steps" then
        match doc with
        | .stepsDoc r => (.jsonSuccess, saveToStoreSteps now r s)
        | .healthDoc _ => (.jsonSuccess, s)
      else if containsStr req.pathname "/health" then
        match doc with
        | .healthDoc h => (.jsonSuccess, saveToStoreHealthData now h s)
        | .stepsDoc _ => (.jsonSuccess, s)
      else (.notFound, s)

/-- The three current cache-generation identifiers (src/sw.js:1-3). -/
def CACHE_NAME : String := "quest-tracker-v3"

/-- The versioned-API data cache generation. -/
def DATA_CACHE_NAME : String := "quest-data-v2"

/-- The health cache generation. -/
def HEALTH_CACHE_NAME : String := "health-data-v1"

/-- The request classes of the fetch router. -/
inductive RouteClass where
  | shareTarget
  | healthAPI
  | genericAPI
  | appShell
deriving DecidableEq, Repr

/-- The fetch router (src/sw.js:164-205): `POST /share-data` is the share
target; a pathname containing `/api/health` or `/api/steps` is the health
API; any other URL containing `/api/` is the generic network-first branch;
everything else is the cache-first app shell. -/
def classifyRequest (method pathname url : String) : RouteClass :=
  if pathname = "/share-data" ∧ method = "POST" then .shareTarget
  else if containsStr pathname "/api/health" || containsStr pathname "/api/steps" then .healthAPI
  else if containsStr url "/api/" then .genericAPI
  else .appShell

/-- A network response as the cache stores it: status and body. -/
structure NetResponse where
  status : Nat
  body : String
deriving DecidableEq, Repr

/-- The data cache: a URL-keyed store of responses (the Cache API keyed by
request URL; `none` means no entry). -/
def DataCache := String → Option NetResponse

/-- A cache with no entries. -/
def emptyCache : DataCache := fun _ => none

/-- `cache.put(url, response)`: overwrite the entry stored for the URL. -/
def cachePut (url : String) (r : NetResponse) (c : DataCache) : DataCache :=
  fun u => if u = url then some r else c u

/-- `cache.match(url)`: the most recently stored response for the URL, if any. -/
def cacheMatch (url : String) (c : DataCache) : Option NetResponse := c url

/-- The generic `/api/` fetch branch (src/sw.js:180-195): network-first with
cache fallback.  `netResult` is the outcome of the live `fetch` (`none` is a
network failure).  On success the response is returned and, when its status
is 200, a copy is stored keyed by the request URL; on failure the stored
copy (if any) is returned and the cache is untouched. -/
def genericApiFetch (url : String) (netResult : Option NetResponse)
    (cache : DataCache) : Option NetResponse × DataCache :=
  match netResult with
  | some response =>
    (some response, if response.status = 200 then cachePut url response cache else cache)
  | none => (cacheMatch url cache, cache)

/-- The activate handler's cache sweep (src/sw.js:148-161): every cache whose
key differs from all three current generation identifiers is deleted; the
survivors are exactly the keys passing the three-name test. -/
def activateSurvivors (keyList : List String) : List String :=
  keyList.filter fun key =>
    key == CACHE_NAME || key == DATA_CACHE_NAME || key == HEALTH_CACHE_NAME

/-- An object-store schema as created by `initDB`'s upgrade callback. -/
structure StoreSchema where
  name : String
  keyPath : String
  autoIncrement : Bool
  indexes : List String
deriving DecidableEq, Repr

/-- `Object.values(STORES)` (src/sw.js:17-23). -/
def storesList : List String :=
  ["steps", "healthData", "quests", "habits", "achievements"]

/-- The secondary indexes created per store (src/sw.js:45-54). -/
def indexesFor (storeName : String) : List String :=
  if storeName = "steps" then ["date", "timestamp"]
  else if storeName = "healthData" then ["type", "date"]
  else if storeName = "quests" then ["category", "status"]
  else []

/-- initDB's first-open upgrade (src/sw.js:26-59): one object store per entry
of `STORES`, keyed by an auto-incrementing `id`, with the per-store secondary
indexes. -/
def initDB : List StoreSchema :=
  storesList.map fun n =>
    { name := n, keyPath := "id", autoIncrement := true, indexes := indexesFor n }

/-- A fitness quest with a 100-step target and no progress yet. -/
def questFit : Quest :=
  { category := some "fitness", target := some { steps := some 100 }
  , progress := some 0, completed := some false, timestamp := some 1 }

/-- A database holding one 500-step record dated 2024-06-01 and the quest
above: the state used to exhibit the reconciliation defect. -/
def dbFit : DBState :=
  { steps := [{ date := "2024-06-01", steps := 500, source := some "app", timestamp := some 1 }]
  , quests := [questFit] }

/-- The raw CSV text of the normalization round-trip claim. -/
def csvShareText : String := "2024-01-01,500\n2024-01-02,750"

/-- A shared payload element carrying only a `value` field (no `type`, no
`steps`). -/
def itemValueOnly : HealthItem := { date := some "2024-06-01", value := some 300 }

/-- The per-element normalization exactly as claim C3 words it — the
classification also accepts a defined `value` field, and every default fires
on plain absence of the field.  Stated only for comparison against
`processItem`. -/
def claimItemNormalization (today : String) (item : HealthItem) : SavedRecord :=
  if item.type = some "steps" ∨ item.steps.isSome ∨ item.value.isSome then
    .stepsRec { date := item.date.getD today
              , steps := item.steps.getD (item.value.getD 0)
              , source := some (item.source.getD "shared")
              , metadata := some (item.metadata.getD []) }
  else .healthRec item

/-- A quest record violating the step-target bound: progress far beyond its
10-step target, completed left false. -/
def badQuest : Quest :=
  { category := some "fitness", type := some "steps"
  , target := some { steps := some 10 }, progress := some 999, completed := some false }

/-- The per-record invariant of claim C4 as worded: a quest with a defined
numeric `target.steps` has `progress ≤ target.steps` and `completed` true
exactly when `progress ≥ target.steps`. -/
def questStepBound (q : Quest) : Bool :=
  match q.target with
  | some t =>
    match t.steps with
    | some goal =>
      (q.progress.getD 0 ≤ goal) && (q.completed.getD false == decide (q.progress.getD 0 ≥ goal))
    | none => true
  | none => true

/-- A fitness quest with a 100-step target, used to instantiate the
reconciliation bound. -/
def witnessQuest : Quest :=
  { category := some "fitness", target := some { steps := some 100 }
  , progress := some 3, completed := some false }

/-- A `POST /api/steps` request whose body failed to parse as JSON. -/
def reqBadJson : ApiRequest :=
  { method := .post, pathname := "/api/steps", body := .error "Unexpected token" }
/-- Claim C1 (code_bug evidence): on a database with one 500-step record
dated 2024-06-01 and one fitness quest with a 100-step target, a run of the
shipped `updateQuestProgress` leaves the state unchanged — its
`getStepsByDateRange` call throws a ReferenceError on the undefined
`storeName` and the catch block swallows it — while the same run with the
date-range helper corrected as the spec assumes sets the quest's progress to
min(500, 100) = 100 with completed true, as the claim states. -/
theorem updateQuestProgress_storeName_defect :
    updateQuestProgress "2024-06-01" 2 dbFit = dbFit
    ∧ getStepsByDateRange "2024-06-01" "2024-06-01" dbFit = .error "storeName is not defined"
    ∧ (updateQuestProgressFixed "2024-06-01" 2 dbFit).quests
        = [{ questFit with progress := some 100, completed := some true, updatedAt := some 2 }] := by
  refine ⟨rfl, rfl, ?_⟩
  decide

/-- Claim C2 (counterexample): feeding `"2024-01-01,500\n2024-01-02,750"`
through the text normalizer does NOT yield two Steps records — the CSV branch
skips the first line as a header, so only one record is produced. -/
theorem parseHealthDataText_header_skipped_cex :
    (parseHealthDataText "2024-06-01" csvShareText).length = 1
    ∧ parseHealthDataText "2024-06-01" csvShareText
        ≠ [ { type := some "steps", date := some "2024-01-01", steps := some 500 },
            { type := some "steps", date := some "2024-01-02", steps := some 750 } ] := by
  decide

/-- Claim C2 (amended): the normalizer consumes the first line as a CSV
header, so the text yields exactly one Steps record, with steps = 750 dated
2024-01-02. -/
theorem parseHealthDataText_csv_single_record :
    parseHealthDataText "2024-06-01" csvShareText
      = [ { type := some "steps", date := some "2024-01-02", steps := some 750 } ] := by
  decide

/-- Claim C3 (counterexample): an element carrying only a defined `value`
field (no `type`, no `steps`) is stored verbatim as a HealthData record by
`processItem`, whereas the claim's wording would emit a Steps record with
steps = 300 for it. -/
theorem processItem_value_only_cex :
    processItem "2024-06-01" itemValueOnly = .healthRec itemValueOnly
    ∧ claimItemNormalization "2024-06-01" itemValueOnly
        = .stepsRec { date := "2024-06-01", steps := 300, source := some "shared", metadata := some [] }
    ∧ processItem "2024-06-01" itemValueOnly ≠ claimItemNormalization "2024-06-01" itemValueOnly := by
  decide

/-- Claim C3 (amended): an element is emitted as a Steps record iff it has
`type === "steps"` or a defined `steps` field (`value` plays no part in the
classification); the emitted record takes its steps count from the first
falsy-skipping alternative of `steps`, `value`, `0`, its date from `date`
unless absent or empty (then `today`), its source from `source` unless absent
or empty (then `"shared"`), and its metadata from `metadata` defaulted to the
empty map; every other element — including one carrying only a `value`
field — is stored verbatim as a HealthData record. -/
theorem processItem_normalization (today : String) (item : HealthItem) :
    (item.type = some "steps" ∨ item.steps.isSome →
      processItem today item
        = .stepsRec { date := jsOrStr item.date today
                    , steps := jsOrNum item.steps (jsOrNum item.value 0)
                    , source := some (jsOrStr item.source "shared")
                    , metadata := some (item.metadata.getD []) })
    ∧ (¬ (item.type = some "steps" ∨ item.steps.isSome) →
      processItem today item = .healthRec item) := by
  constructor <;> intro h <;> simp [processItem, h]

/-- Witness for the amended C3 theorem at a concrete element. -/
theorem processItem_normalization_witness :
    processItem "2024-01-05" { type := some "steps", value := some 40 }
      = .stepsRec { date := "2024-01-05", steps := 40, source := some "shared", metadata := some [] } := by
  exact (processItem_normalization "2024-01-05" { type := some "steps", value := some 40 }).1 (Or.inl rfl)

/-- Claim C4 (counterexample): the state reached from the empty database by a
single `SAVE_QUEST_DATA` message save contains a quest with a defined numeric
step target whose progress (999) exceeds the target (10) — the save stores
the record verbatim, so the claimed reachable-state invariant fails. -/
theorem questBound_save_quest_cex :
    ((saveToStoreQuests 5 badQuest emptyDB).quests.all questStepBound) = false := by
  decide

/-- Claim C4 (amended): every quest updated by the per-quest reconciliation
step - one passing the fitness/steps filter with a truthy numeric step
target - satisfies the bound: its new progress is min(totalStepsToday, goal),
which never exceeds the goal, its completed flag is true exactly when the new
progress reaches the goal, and whenever totalStepsToday ≥ goal the progress
equals the goal with completed true.  Quests stored verbatim by message-based
saves are not subject to the bound. -/
theorem reconcileQuest_bounds (total : Int) (now : Nat) (q : Quest) (goal : Int)
    (hmatch : q.category = some "fitness" ∨ q.type = some "steps")
    (htarget : q.target = some { steps := some goal })
    (hnz : goal ≠ 0) :
    (reconcileQuest total now q).progress = some (jsMin total goal)
    ∧ jsMin total goal ≤ goal
    ∧ ((reconcileQuest total now q).completed = some true ↔ goal ≤ jsMin total goal)
    ∧ (goal ≤ total → (reconcileQuest total now q).progress = some goal
        ∧ (reconcileQuest total now q).completed = some true) := by
  have hq : reconcileQuest total now q
      = { q with progress := some (jsMin total goal)
               , completed := some (decide (jsMin total goal ≥ goal))
               , updatedAt := some now } := by
    simp [reconcileQuest, htarget, hmatch, hnz]
  have hmin : jsMin total goal ≤ goal := by
    unfold jsMin; split <;> omega
  refine ⟨by rw [hq], hmin, ?_, ?_⟩
  · rw [hq]
    simp [ge_iff_le]
  · intro hge
    have hmg : jsMin total goal = goal := by
      unfold jsMin; split <;> omega
    rw [hq, hmg]
    exact ⟨rfl, by simp⟩
/-- Witness for the amended C4 theorem at a concrete quest. -/
theorem reconcileQuest_bounds_witness :
    (reconcileQuest 500 2 witnessQuest).progress = some 100
    ∧ (reconcileQuest 500 2 witnessQuest).completed = some true := by
  have h := reconcileQuest_bounds 500 2 witnessQuest 100 (Or.inl rfl) rfl (by decide)
  exact ⟨h.1.trans (by decide), (h.2.2.2 (by decide)).2⟩

/-- Claim C5: a POST whose pathname contains `/api/steps` and whose body
fails to parse as JSON gets a response with status 500 whose JSON body
carries an `error` field, and the database — in particular the Steps
collection — is left unchanged. -/
theorem handleHealthAPI_post_badJson (now : Nat) (req : ApiRequest) (e : String) (s : DBState)
    (hm : req.method = .post) (hb : req.body = .error e)
    (hp : containsStr req.pathname "/api/steps" = true) :
    (handleHealthAPI now req s).1 = .jsonError e
    ∧ ((handleHealthAPI now req s).1).status = 500
    ∧ ((handleHealthAPI now req s).1).hasErrorField = true
    ∧ (handleHealthAPI now req s).2 = s := by
  obtain ⟨m, p, sd, ed, b⟩ := req
  simp only at hm hb
  subst hm; subst hb
  simp [handleHealthAPI, ApiResponse.status, ApiResponse.hasErrorField]

/-- Witness for the C5 theorem at a concrete malformed request. -/
theorem handleHealthAPI_post_badJson_witness :
    (handleHealthAPI 7 reqBadJson emptyDB).1 = .jsonError "Unexpected token"
    ∧ ((handleHealthAPI 7 reqBadJson emptyDB).1).status = 500
    ∧ ((handleHealthAPI 7 reqBadJson emptyDB).1).hasErrorField = true
    ∧ (handleHealthAPI 7 reqBadJson emptyDB).2 = emptyDB :=
  handleHealthAPI_post_badJson 7 reqBadJson "Unexpected token" emptyDB rfl rfl (by decide)

/-- Claim C6: running quest reconciliation twice in succession with no
intervening writes equals running it once — the second run leaves the Quests
collection (indeed the whole store) unchanged.  On the shipped code this
holds because every run's date-range query throws on the undefined
`storeName` and the catch block leaves the store untouched. -/
theorem updateQuestProgress_idem (today : String) (now1 now2 : Nat) (s : DBState) :
    updateQuestProgress today now2 (updateQuestProgress today now1 s)
      = updateQuestProgress today now1 s := rfl

/-- Claim C7: for a request routed to the generic `/api/` branch, a live
fetch succeeding with status 200 is returned as-is and its copy is stored
under the request URL; a failed live fetch returns the most recently stored
copy for that URL (absent if none was ever cached) and leaves the cache
unchanged. -/
theorem genericApi_networkFirst (m p u : String) (c : DataCache) (r : NetResponse)
    (hroute : classifyRequest m p u = .genericAPI) :
    (genericApiFetch u (some r) c).1 = some r
    ∧ (r.status = 200 → cacheMatch u (genericApiFetch u (some r) c).2 = some r)
    ∧ (genericApiFetch u none c).1 = cacheMatch u c
    ∧ (genericApiFetch u none c).2 = c := by
  refine ⟨rfl, ?_, rfl, rfl⟩
  intro h200
  simp [genericApiFetch, h200, cacheMatch, cachePut]

/-- Witness for the C7 theorem at a concrete versioned-API request. -/
theorem genericApi_networkFirst_witness :
    (genericApiFetch "https://app.test/api/quests" (some { status := 200, body := "live" }) emptyCache).1
      = some { status := 200, body := "live" }
    ∧ cacheMatch "https://app.test/api/quests"
        (genericApiFetch "https://app.test/api/quests" (some { status := 200, body := "live" }) emptyCache).2
      = some { status := 200, body := "live" } := by
  have h := genericApi_networkFirst "GET" "/api/quests" "https://app.test/api/quests"
    emptyCache { status := 200, body := "live" } (by decide)
  exact ⟨h.1, h.2.1 rfl⟩

/-- Claim C8: a cache name survives the activate handler's sweep iff it was
present and is one of the three current generation identifiers — every other
cache is deleted and none of the three current ones is. -/
theorem activate_cache_eviction (keyList : List String) (key : String) :
    key ∈ activateSurvivors keyList
      ↔ key ∈ keyList
        ∧ (key = CACHE_NAME ∨ key = DATA_CACHE_NAME ∨ key = HEALTH_CACHE_NAME) := by
  simp [activateSurvivors, List.mem_filter, or_assoc]

/-- Claim C9 (counterexample): `initDB` creates five object stores, not
four — the `achievements` collection is created alongside the four the claim
lists. -/
theorem initDB_five_stores_cex :
    initDB.length = 5
    ∧ (initDB.map StoreSchema.name).contains "achievements" = true
    ∧ initDB.map StoreSchema.name ≠ ["steps", "healthData", "quests", "habits"] := by
  decide

/-- Claim C9 (amended): on first open the store creates exactly five
collections — steps, healthData, quests, habits, and achievements — each
keyed by an auto-incrementing `id`, with secondary indexes date and timestamp
on steps, type and date on healthData, category and status on quests, and no
indexes on habits or achievements; no other collection is created. -/
theorem initDB_schema :
    initDB
      = [ { name := "steps", keyPath := "id", autoIncrement := true, indexes := ["date", "timestamp"] }
        , { name := "healthData", keyPath := "id", autoIncrement := true, indexes := ["type", "date"] }
        , { name := "quests", keyPath := "id", autoIncrement := true, indexes := ["category", "status"] }
        , { name := "habits", keyPath := "id", autoIncrement := true, indexes := [] }
        , { name := "achievements", keyPath := "id", autoIncrement := true, indexes := [] } ] := by
  decide

/-- Claim C10: a share-target POST whose form carries neither a `text` field
nor a `healthData` file is answered with the 302 redirect to the application
root, stores nothing, and broadcasts nothing. -/
theorem handleSharedData_empty_form_noop
    (parseJson : String → Option HealthPayload) (today : String) (now : Nat) (s : DBState) :
    handleSharedData parseJson today now { text := none, healthDataFile := none } s
      = { response := .redirect302 "/", state := s, broadcasts := [] } := rfl
